import Mathlib

/-
  Verification of the m17web-client shared WebSocket layer
  (src/lib/m17web-player.js).

  The development shallowly embeds the `WebSocketManager` singleton
  (connection registry, listener multicaster) and the `M17webPlayer`
  session logic (stream assembler, attribute/lifecycle callbacks) as
  executable Lean functions.  JavaScript objects used as string-keyed
  tables are modelled as functions `Key → Option α`; the identity of a
  `new WebSocket(...)` object is modelled by a freshness counter
  (`nextWsId`) so that "same handle" / "brand-new handle" is expressible.
  DOM construction, CSS and the audio pipeline are out of scope; the
  user-visible text fields that the handlers write (`playerCallsign`,
  `playerLastCall`) are kept as plain strings.
-/

namespace M17Web

/-- Connection keys are the literal strings the source builds:
    `proxy/reflector/module` for data, `status:proxy` for status. -/
abbrev Key := String

/-- `connections[key]` entry: the WebSocket handle (by identity) plus the
    reference count.  `refCount` is a JavaScript number, modelled as `Int`. -/
structure Conn where
  wsId : Nat
  refCount : Int
deriving DecidableEq, Repr

/-- The four event names dispatched through `notifyListeners`. -/
inductive EventName
  | onopen
  | onclose
  | onerror
  | onmessage
deriving DecidableEq, Repr

/-- A listener slot records which of the four capabilities the registered
    object defines.  `unregisterListener` overwrites a slot with `{}`,
    i.e. the record with no capabilities (`tombstone`). -/
structure ListenerRec where
  onopen : Bool
  onclose : Bool
  onerror : Bool
  onmessage : Bool
deriving DecidableEq, Repr

/-- The empty object `{}` that `unregisterListener` stores in a slot. -/
def tombstone : ListenerRec := ⟨false, false, false, false⟩

/-- Whether a slot's record defines the given event handler. -/
def ListenerRec.has (rec : ListenerRec) : EventName → Bool
  | .onopen => rec.onopen
  | .onclose => rec.onclose
  | .onerror => rec.onerror
  | .onmessage => rec.onmessage

/-- Point update of a string-keyed table (JS `obj[key] = v`). -/
def mapSet {α : Type} (f : Key → Option α) (k : Key) (v : α) : Key → Option α :=
  fun k' => if k' = k then some v else f k'

/-- Point removal from a string-keyed table (JS `delete obj[key]`). -/
def mapErase {α : Type} (f : Key → Option α) (k : Key) : Key → Option α :=
  fun k' => if k' = k then none else f k'

/-- State of the `WebSocketManager` module-level singleton: the three
    tables `connections`, `statusConnections`, `listeners`, plus the
    freshness counter standing for `new WebSocket(...)` identity. -/
structure ManagerState where
  connections : Key → Option Conn
  statusConnections : Key → Option Nat
  listeners : Key → Option (List ListenerRec)
  nextWsId : Nat

/-- The tables start empty. -/
def initialState : ManagerState :=
  { connections := fun _ => none
    statusConnections := fun _ => none
    listeners := fun _ => none
    nextWsId := 0 }

/-- Key of a data connection: `` `${proxy}/${reflector}/${module}` ``. -/
def dataKey (proxy reflector module : String) : Key :=
  proxy ++ "/" ++ reflector ++ "/" ++ module

/-- Key of a status connection: `` `status:${proxy}` ``. -/
def statusKey (proxy : String) : Key :=
  "status:" ++ proxy

/-- Key selection shared by `registerListener` / `unregisterListener`. -/
def listenerKey (proxy reflector module : String) (isStatus : Bool) : Key :=
  if isStatus then statusKey proxy else dataKey proxy reflector module

/-- `notifyListeners(key, eventName, event)`: iterates the key's slot
    array and calls `listener[eventName](event)` for each slot that
    defines it.  Modelled as the list of slot indices invoked, in order. -/
def notifyListeners (s : ManagerState) (key : Key) (e : EventName) : List Nat :=
  match s.listeners key with
  | some l => (List.range l.length).filter fun i => ((l[i]?).getD tombstone).has e
  | none => []

/-- `getStatusConnection(proxy)`: creates the status socket on first use,
    then always returns the stored handle. -/
def getStatusConnection (proxy : String) (s : ManagerState) : Nat × ManagerState :=
  let key := statusKey proxy
  match s.statusConnections key with
  | some ws => (ws, s)
  | none =>
      (s.nextWsId,
       { s with statusConnections := mapSet s.statusConnections key s.nextWsId
                nextWsId := s.nextWsId + 1 })

/-- `getConnection(proxy, reflector, module)`: if absent, the source stores
    `{ ws: new WebSocket(...), refCount: 0 }`; it then unconditionally runs
    `connections[key].refCount++` and returns `connections[key].ws`.  The
    fresh-entry branch therefore ends with refCount `0 + 1`. -/
def getConnection (proxy reflector module : String) (s : ManagerState) :
    Nat × ManagerState :=
  let key := dataKey proxy reflector module
  match s.connections key with
  | some c =>
      (c.wsId,
       { s with connections := mapSet s.connections key ⟨c.wsId, c.refCount + 1⟩ })
  | none =>
      (s.nextWsId,
       { s with connections := mapSet s.connections key ⟨s.nextWsId, 0 + 1⟩
                nextWsId := s.nextWsId + 1 })

/-- `registerListener(...)`: ensures `listeners[key]` is an array, pushes
    the listener object and returns `listeners[key].length - 1`. -/
def registerListener (proxy reflector module : String) (rec : ListenerRec)
    (isStatus : Bool) (s : ManagerState) : Nat × ManagerState :=
  let key := listenerKey proxy reflector module isStatus
  let l := (s.listeners key).getD []
  (l.length, { s with listeners := mapSet s.listeners key (l ++ [rec]) })

/-- First half of `unregisterListener`: `if (listeners[key] && listeners[key][index])
    listeners[key][index] = {}`.  An in-range slot always holds an object
    (truthy, `{}` included), an out-of-range index yields `undefined`. -/
def tombstoneUpdate (key : Key) (index : Nat) (s : ManagerState) : ManagerState :=
  match s.listeners key with
  | some l =>
      if index < l.length then
        { s with listeners := mapSet s.listeners key (l.set index tombstone) }
      else s
  | none => s

/-- `unregisterListener(...)`: tombstones the slot, then for data keys
    decrements `connections[key].refCount` whenever the entry exists and,
    if the decremented count is `<= 0`, runs `ws.close()` and deletes the
    entry.  The returned `Bool` records whether `ws.close()` was called. -/
def unregisterListener (proxy reflector module : String) (index : Nat)
    (isStatus : Bool) (s : ManagerState) : ManagerState × Bool :=
  let key := listenerKey proxy reflector module isStatus
  let s1 := tombstoneUpdate key index s
  if isStatus then (s1, false)
  else
    match s1.connections key with
    | some c =>
        if c.refCount - 1 ≤ 0 then
          ({ s1 with connections := mapErase s1.connections key }, true)
        else
          ({ s1 with connections := mapSet s1.connections key ⟨c.wsId, c.refCount - 1⟩ },
           false)
    | none => (s1, false)

/-- `ws.onclose` from `createEventHandlers`: deletes the table entry for
    the key (unconditionally), then notifies listeners with `onclose`.
    Returned with the list of slot indices that were invoked. -/
def wsOnClose (key : Key) (isStatus : Bool) (s : ManagerState) :
    ManagerState × List Nat :=
  let s1 :=
    if isStatus then { s with statusConnections := mapErase s.statusConnections key }
    else { s with connections := mapErase s.connections key }
  (s1, notifyListeners s1 key EventName.onclose)

/-! ### Player session (`M17webPlayer`) -/

/-- Per-widget session state.  The string fields `playerCallsign` and
    `lastHeard` model the `textContent` of the shadow-DOM elements
    `#playerCallsign` / `#playerLastCall` that the handlers write.
    Purely presentational fields (theme, play symbol, volume slider,
    AudioContext) are out of scope and omitted. -/
structure Session where
  proxy : String
  reflector : String
  module : String
  label : String
  playerActive : Bool
  wsListenerIndex : Int
  statusListenerIndex : Int
  ws : Option Nat
  statusWs : Option Nat
  src_call : String
  receive_buffer : List Nat
  playerCallsign : String
  lastHeard : String
deriving DecidableEq, Repr

/-- Field initializers of `M17webPlayer` (constructor + class fields). -/
def initSession : Session :=
  { proxy := "", reflector := "", module := "", label := ""
    playerActive := false
    wsListenerIndex := -1, statusListenerIndex := -1
    ws := none, statusWs := none
    src_call := ""
    receive_buffer := []
    playerCallsign := "", lastHeard := "" }

/-- The data listener object built in `_connectToServer` defines all four
    handlers. -/
def wsRec : ListenerRec := ⟨true, true, true, true⟩

/-- The status listener object built in `_connectToServerStatus` defines
    only `onmessage`. -/
def statusRec : ListenerRec := ⟨false, false, false, true⟩

/-- One frame of the data wire protocol
    `{ c2_stream: [...], done: bool, src_call: string? }`. -/
structure DataMsg where
  c2_stream : List Nat
  done : Bool
  src_call : Option String
deriving DecidableEq, Repr

/-- `_arrayToArrayBuffer` copies each array element into a `Uint8Array`
    view, which coerces every value modulo 256. -/
def arrayToArrayBuffer (array : List Nat) : List Nat :=
  array.map fun b => b % 256

/-- `wsListener.onmessage` (the stream assembler): concatenates the frame's
    payload bytes onto `_receive_buffer`; if the post-append length is at
    least 128 or the frame's `done` flag is set, calls
    `decode(_receive_buffer)` (its argument is returned as the second
    component) and resets the buffer to length 0. -/
def wsListenerOnMessage (sess : Session) (msg : DataMsg) :
    Session × Option (List Nat) :=
  let buf := sess.receive_buffer ++ arrayToArrayBuffer msg.c2_stream
  if 128 ≤ buf.length ∨ msg.done = true then
    ({ sess with receive_buffer := [] }, some buf)
  else
    ({ sess with receive_buffer := buf }, none)

/-- One entry of the status wire protocol array. -/
structure StatusEntry where
  reflector : String
  module : String
  last_qso_call : String
  active_qso : Bool
deriving DecidableEq, Repr

/-- Body of the `received_msg.forEach` in the status listener: on an entry
    matching the session's (reflector, module), update the last-heard
    line and set the displayed callsign either to the talker
    (`active_qso`) or back to the configured label. -/
def processStatusEntry (sess : Session) (e : StatusEntry) : Session :=
  if e.reflector = sess.reflector ∧ e.module = sess.module then
    let sess1 := { sess with lastHeard := "Last Heard: " ++ e.last_qso_call }
    if e.active_qso then { sess1 with playerCallsign := e.last_qso_call }
    else { sess1 with playerCallsign := sess1.label }
  else sess

/-- `statusListener.onmessage` applied to an (already parsed) array. -/
def statusOnMessage (sess : Session) (entries : List StatusEntry) : Session :=
  entries.foldl processStatusEntry sess

/-- `_createUI`: the callsign element is initialised with
    `this._src_call || this.label` ("" is falsy). -/
def createUI (sess : Session) : Session :=
  { sess with
      playerCallsign := if sess.src_call = "" then sess.label else sess.src_call
      lastHeard := "LastCall" }

/-- `_connectToServerStatus`: bails out on an empty proxy, unregisters the
    previous status listener if any, registers the status listener and
    acquires the shared status connection. -/
def connectToServerStatus (sess : Session) (mgr : ManagerState) :
    Session × ManagerState :=
  if sess.proxy = "" then (sess, mgr)
  else
    let mgr1 :=
      if 0 ≤ sess.statusListenerIndex then
        (unregisterListener sess.proxy "" "" sess.statusListenerIndex.toNat true mgr).1
      else mgr
    let reg := registerListener sess.proxy "" "" statusRec true mgr1
    let got := getStatusConnection sess.proxy reg.2
    ({ sess with statusListenerIndex := Int.ofNat reg.1, statusWs := some got.1 },
     got.2)

/-- `_connectToServer`: bails out when proxy/reflector/module is missing,
    unregisters the previous data listener if any, registers the data
    listener and acquires the shared data connection. -/
def connectToServer (sess : Session) (mgr : ManagerState) :
    Session × ManagerState :=
  if sess.proxy = "" ∨ sess.reflector = "" ∨ sess.module = "" then (sess, mgr)
  else
    let mgr1 :=
      if 0 ≤ sess.wsListenerIndex then
        (unregisterListener sess.proxy sess.reflector sess.module
          sess.wsListenerIndex.toNat false mgr).1
      else mgr
    let reg := registerListener sess.proxy sess.reflector sess.module wsRec false mgr1
    let got := getConnection sess.proxy sess.reflector sess.module reg.2
    ({ sess with wsListenerIndex := Int.ofNat reg.1, ws := some got.1 }, got.2)

/-- `_disconnectWebSockets`: unregisters the data listener and then the
    status listener (each only if its stored index is ≥ 0), resetting both
    indices to -1 and both handles to null.  Both calls use the session's
    CURRENT attribute values to rebuild the keys. -/
def disconnectWebSockets (sess : Session) (mgr : ManagerState) :
    Session × ManagerState :=
  let step1 :=
    if 0 ≤ sess.wsListenerIndex then
      ({ sess with wsListenerIndex := -1 },
       (unregisterListener sess.proxy sess.reflector sess.module
         sess.wsListenerIndex.toNat false mgr).1)
    else (sess, mgr)
  let step2 :=
    if 0 ≤ step1.1.statusListenerIndex then
      ({ step1.1 with statusListenerIndex := -1 },
       (unregisterListener step1.1.proxy "" "" step1.1.statusListenerIndex.toNat
         true step1.2).1)
    else step1
  ({ step2.1 with ws := none, statusWs := none }, step2.2)

/-- `_reconnectIfNeeded`: while playing with a complete key, disconnect
    then reconnect the data path; while not playing, (re)connect the
    status path. -/
def reconnectIfNeeded (sess : Session) (mgr : ManagerState) :
    Session × ManagerState :=
  if sess.playerActive = true ∧ sess.proxy ≠ "" ∧ sess.reflector ≠ "" ∧
      sess.module ≠ "" then
    let d := disconnectWebSockets sess mgr
    connectToServer d.1 d.2
  else if sess.playerActive = false then
    connectToServerStatus sess mgr
  else (sess, mgr)

/-- The five observed attributes. -/
inductive AttrName
  | proxy
  | reflector
  | module
  | label
  | theme
deriving DecidableEq, Repr

/-- `attributeChangedCallback(name, oldValue, newValue)`: note that the
    property is assigned the new value BEFORE `_reconnectIfNeeded` runs.
    The theme branch only restyles the card (out of scope). -/
def attributeChangedCallback (sess : Session) (mgr : ManagerState)
    (name : AttrName) (oldValue newValue : String) : Session × ManagerState :=
  if oldValue = newValue then (sess, mgr)
  else
    match name with
    | AttrName.proxy => reconnectIfNeeded { sess with proxy := newValue } mgr
    | AttrName.reflector => reconnectIfNeeded { sess with reflector := newValue } mgr
    | AttrName.module => reconnectIfNeeded { sess with module := newValue } mgr
    | AttrName.label => ({ sess with label := newValue }, mgr)
    | AttrName.theme => (sess, mgr)

/-- `connectedCallback`: builds the UI and connects to the status server
    (the WASM init is opaque and has no model state). -/
def connectedCallback (sess : Session) (mgr : ManagerState) :
    Session × ManagerState :=
  connectToServerStatus (createUI sess) mgr

/-- `_togglePlay`: while active, unregister the data listener (if any) and
    go inactive; while inactive, go active and `_connectToServer`
    (AudioContext creation is opaque). -/
def togglePlay (sess : Session) (mgr : ManagerState) : Session × ManagerState :=
  if sess.playerActive = true then
    let step1 :=
      if 0 ≤ sess.wsListenerIndex then
        ({ sess with wsListenerIndex := -1, ws := none },
         (unregisterListener sess.proxy sess.reflector sess.module
           sess.wsListenerIndex.toNat false mgr).1)
      else (sess, mgr)
    ({ step1.1 with playerActive := false }, step1.2)
  else
    connectToServer { sess with playerActive := true } mgr

/-! ### Traces and concrete states used by the theorems -/

/-- A widget that is configured (proxy `p`, reflector `r1`, module `m`),
    connected, playing, and then has its `reflector` attribute changed to
    `r2` while playing.  Attribute callbacks for the initial values fire
    before `connectedCallback`, as in the browser. -/
def demoFinal : Session × ManagerState :=
  let st0 := (initSession, initialState)
  let st1 := attributeChangedCallback st0.1 st0.2 AttrName.proxy "" "p"
  let st2 := attributeChangedCallback st1.1 st1.2 AttrName.reflector "" "r1"
  let st3 := attributeChangedCallback st2.1 st2.2 AttrName.module "" "m"
  let st4 := connectedCallback st3.1 st3.2
  let st5 := togglePlay st4.1 st4.2
  attributeChangedCallback st5.1 st5.2 AttrName.reflector "r1" "r2"

/-- One registry operation on a fixed data key: `getConnection` or
    `unregisterListener` with some listener token. -/
inductive RegOp
  | acquire
  | release (token : Nat)

/-- Effect of one registry operation on the manager state. -/
def regStep (p r m : String) (s : ManagerState) : RegOp → ManagerState
  | RegOp.acquire => (getConnection p r m s).2
  | RegOp.release t => (unregisterListener p r m t false s).1

/-- Run a sequence of acquire/release operations on the key `(p, r, m)`. -/
def runOps (p r m : String) (ops : List RegOp) (s : ManagerState) : ManagerState :=
  ops.foldl (regStep p r m) s

/-- One multicaster operation on a fixed key: register a listener object
    or unregister a token. -/
inductive LOp
  | reg (rec : ListenerRec)
  | unreg (index : Nat)

/-- Effect of one multicaster operation on the manager state. -/
def lStep (p r m : String) (iSt : Bool) (s : ManagerState) : LOp → ManagerState
  | LOp.reg rec => (registerListener p r m rec iSt s).2
  | LOp.unreg i => (unregisterListener p r m i iSt s).1

/-- Run a sequence of register/unregister operations on one key. -/
def runLOps (p r m : String) (iSt : Bool) (ops : List LOp) (s : ManagerState) :
    ManagerState :=
  ops.foldl (lStep p r m iSt) s

/-- Content of the listener slot `i` of a key (`none` when absent). -/
def slotAt (s : ManagerState) (key : Key) (i : Nat) : Option ListenerRec :=
  ((s.listeners key).getD [])[i]?

/-- Length of a key's listener slot sequence. -/
def listLen (s : ManagerState) (key : Key) : Nat :=
  ((s.listeners key).getD []).length

/-- Registry invariant: every live data connection has a positive
    reference count. -/
def connPos (s : ManagerState) : Prop :=
  ∀ k c, s.connections k = some c → 1 ≤ c.refCount

/-- A state holding one data connection with refCount 5 (witness input). -/
def c5State : ManagerState :=
  { connections := mapSet (fun _ => none) (dataKey "a" "b" "c") ⟨0, 5⟩
    statusConnections := fun _ => none
    listeners := fun _ => none
    nextWsId := 1 }

/-- A state holding one data connection with refCount 2 and two listener
    slots, the first already tombstoned (witness input). -/
def c10State : ManagerState :=
  { connections := mapSet (fun _ => none) (dataKey "a" "b" "c") ⟨0, 2⟩
    statusConnections := fun _ => none
    listeners := mapSet (fun _ => none) (dataKey "a" "b" "c") [tombstone, wsRec]
    nextWsId := 1 }

/-- A state whose data key has a single tombstoned slot (witness input). -/
def c6State : ManagerState :=
  { connections := fun _ => none
    statusConnections := fun _ => none
    listeners := mapSet (fun _ => none) (dataKey "a" "b" "c") [tombstone]
    nextWsId := 0 }

/-- A session with two bytes already buffered (witness input). -/
def c1Sess : Session := { initSession with receive_buffer := [1, 2] }

/-- A session displaying an active talker, with a configured idle label
    (counterexample input). -/
def c4Sess : Session :=
  { initSession with
      label := "IDLE", playerCallsign := "N0CALL", src_call := "N0CALL"
      reflector := "R", module := "C" }

/-! ### Helper lemmas -/

theorem mapSet_self {α : Type} (f : Key → Option α) (k : Key) (v : α) :
    mapSet f k v k = some v := by
  simp [mapSet]

theorem mapSet_ne {α : Type} (f : Key → Option α) (k k' : Key) (v : α)
    (h : k' ≠ k) : mapSet f k v k' = f k' := by
  simp [mapSet, h]

theorem mapErase_self {α : Type} (f : Key → Option α) (k : Key) :
    mapErase f k k = none := by
  simp [mapErase]

theorem mapErase_ne {α : Type} (f : Key → Option α) (k k' : Key)
    (h : k' ≠ k) : mapErase f k k' = f k' := by
  simp [mapErase, h]

theorem tombstone_has (e : EventName) : tombstone.has e = false := by
  cases e <;> rfl

theorem listenerKey_false (p r m : String) :
    listenerKey p r m false = dataKey p r m := rfl

theorem listenerKey_true (p r m : String) :
    listenerKey p r m true = statusKey p := rfl

theorem tombstoneUpdate_connections (key : Key) (i : Nat) (s : ManagerState) :
    (tombstoneUpdate key i s).connections = s.connections := by
  unfold tombstoneUpdate
  split
  · split <;> rfl
  · rfl

theorem tombstoneUpdate_statusConnections (key : Key) (i : Nat) (s : ManagerState) :
    (tombstoneUpdate key i s).statusConnections = s.statusConnections := by
  unfold tombstoneUpdate
  split
  · split <;> rfl
  · rfl

theorem tombstoneUpdate_nextWsId (key : Key) (i : Nat) (s : ManagerState) :
    (tombstoneUpdate key i s).nextWsId = s.nextWsId := by
  unfold tombstoneUpdate
  split
  · split <;> rfl
  · rfl

/-- `unregisterListener` on a status key only tombstones the slot. -/
theorem unreg_status_eq (p r m : String) (t : Nat) (s : ManagerState) :
    unregisterListener p r m t true s = (tombstoneUpdate (statusKey p) t s, false) := by
  unfold unregisterListener
  simp [listenerKey]

/-- Case analysis of `unregisterListener` on a data key: the slot is
    tombstoned, and whenever the connection entry exists its refCount is
    decremented, closing and deleting the entry when the result is `≤ 0`. -/
theorem unreg_data_eq (p r m : String) (t : Nat) (s : ManagerState) :
    unregisterListener p r m t false s =
      match s.connections (dataKey p r m) with
      | some c =>
          if c.refCount - 1 ≤ 0 then
            ({ tombstoneUpdate (dataKey p r m) t s with
                 connections := mapErase s.connections (dataKey p r m) }, true)
          else
            ({ tombstoneUpdate (dataKey p r m) t s with
                 connections := mapSet s.connections (dataKey p r m)
                   ⟨c.wsId, c.refCount - 1⟩ }, false)
      | none => (tombstoneUpdate (dataKey p r m) t s, false) := by
  unfold unregisterListener
  simp only [listenerKey_false, Bool.false_eq_true, if_false,
    tombstoneUpdate_connections]

/-- `unregisterListener` touches the listener table only through the
    tombstoning step. -/
theorem unregisterListener_listeners (p r m : String) (t : Nat) (iSt : Bool)
    (s : ManagerState) :
    ((unregisterListener p r m t iSt s).1).listeners
      = (tombstoneUpdate (listenerKey p r m iSt) t s).listeners := by
  cases iSt
  · rw [listenerKey_false, unreg_data_eq]
    cases h : s.connections (dataKey p r m) with
    | none => rfl
    | some c =>
        dsimp only
        split <;> rfl
  · rw [listenerKey_true, unreg_status_eq]

/-- A payload of in-range bytes passes through `_arrayToArrayBuffer`
    unchanged. -/
theorem arrayToArrayBuffer_eq_self (l : List Nat) (h : ∀ x ∈ l, x < 256) :
    arrayToArrayBuffer l = l := by
  unfold arrayToArrayBuffer
  induction l with
  | nil => rfl
  | cons a tl ih =>
      simp only [List.map_cons, List.cons.injEq]
      exact ⟨Nat.mod_eq_of_lt (h a (by simp)),
             ih fun x hx => h x (by simp [hx])⟩

/-! ### Claim theorems -/

/-- C1: for every inbound data message, `wsListener.onmessage` appends the
    message's payload bytes onto the session's receive buffer in order, and
    a flush (invoking `decode` on the full buffer contents, then resetting
    the buffer to length 0) occurs if and only if the post-append buffer
    length is at least 128 or the message's `done` flag is true; otherwise
    the buffer is retained unmodified for the next call. -/
theorem C1_stream_assembler (sess : Session) (msg : DataMsg)
    (hbytes : ∀ x ∈ msg.c2_stream, x < 256) :
    ((wsListenerOnMessage sess msg).2.isSome
        ↔ (128 ≤ (sess.receive_buffer ++ msg.c2_stream).length ∨ msg.done = true)) ∧
    (∀ b, (wsListenerOnMessage sess msg).2 = some b →
        b = sess.receive_buffer ++ msg.c2_stream ∧
        ((wsListenerOnMessage sess msg).1).receive_buffer = []) ∧
    ((wsListenerOnMessage sess msg).2 = none →
        ((wsListenerOnMessage sess msg).1).receive_buffer
          = sess.receive_buffer ++ msg.c2_stream) := by
  unfold wsListenerOnMessage
  rw [arrayToArrayBuffer_eq_self msg.c2_stream hbytes]
  by_cases h : 128 ≤ (sess.receive_buffer ++ msg.c2_stream).length ∨ msg.done = true
  · simp only [if_pos h]
    constructor
    · simpa using h
    constructor
    · intro b hb
      constructor
      · exact (Option.some_injective _ hb).symm
      · trivial
    · intro hb
      exact absurd hb (by simp)
  · simp only [if_neg h]
    constructor
    · simpa using h
    constructor
    · intro b hb
      exact absurd hb (by simp)
    · intro _
      trivial

/-- C1 witness: two buffered bytes plus a one-byte frame with `done = true`
    flushes all three bytes to the decoder and empties the buffer, despite
    the length being far below the 128-byte threshold. -/
theorem C1_stream_assembler_witness :
    (wsListenerOnMessage c1Sess ⟨[5], true, none⟩).2 = some [1, 2, 5] ∧
    ((wsListenerOnMessage c1Sess ⟨[5], true, none⟩).1).receive_buffer = [] := by
  have h := C1_stream_assembler c1Sess ⟨[5], true, none⟩ (by decide)
  have hs : (wsListenerOnMessage c1Sess ⟨[5], true, none⟩).2 = some [1, 2, 5] := by
    decide
  exact ⟨hs, (h.2.1 _ hs).2⟩

/-- Every live connection keeps a positive refCount through an acquire. -/
theorem connPos_get (p r m : String) (s : ManagerState) (hs : connPos s) :
    connPos ((getConnection p r m s).2) := by
  simp only [getConnection]
  cases h : s.connections (dataKey p r m) with
  | some c =>
      intro k c' hk
      dsimp at hk
      by_cases hkey : k = dataKey p r m
      · subst hkey
        rw [mapSet_self] at hk
        cases hk
        have := hs _ _ h
        dsimp only
        omega
      · rw [mapSet_ne _ _ _ _ hkey] at hk
        exact hs _ _ hk
  | none =>
      intro k c' hk
      dsimp at hk
      by_cases hkey : k = dataKey p r m
      · subst hkey
        rw [mapSet_self] at hk
        cases hk
        dsimp only
        omega
      · rw [mapSet_ne _ _ _ _ hkey] at hk
        exact hs _ _ hk

/-- Every live connection keeps a positive refCount through a release. -/
theorem connPos_unreg (p r m : String) (t : Nat) (s : ManagerState)
    (hs : connPos s) : connPos ((unregisterListener p r m t false s).1) := by
  rw [unreg_data_eq]
  cases h : s.connections (dataKey p r m) with
  | none =>
      intro k c hk
      rw [tombstoneUpdate_connections] at hk
      exact hs _ _ hk
  | some c0 =>
      dsimp only
      split
      · intro k c hk
        dsimp at hk
        by_cases hkey : k = dataKey p r m
        · subst hkey
          rw [mapErase_self] at hk
          cases hk
        · rw [mapErase_ne _ _ _ hkey] at hk
          exact hs _ _ hk
      · rename_i hgt
        intro k c hk
        dsimp at hk
        by_cases hkey : k = dataKey p r m
        · subst hkey
          rw [mapSet_self] at hk
          cases hk
          dsimp only
          omega
        · rw [mapSet_ne _ _ _ _ hkey] at hk
          exact hs _ _ hk

theorem connPos_initialState : connPos initialState := by
  intro k c hk
  simp [initialState] at hk

/-- The positivity invariant holds in every state reachable by
    acquire/release traces. -/
theorem connPos_runOps (p r m : String) (ops : List RegOp) (s : ManagerState)
    (hs : connPos s) : connPos (runOps p r m ops s) := by
  induction ops generalizing s with
  | nil => exact hs
  | cons op tl ih =>
      cases op with
      | acquire => exact ih _ (connPos_get p r m s hs)
      | release t => exact ih _ (connPos_unreg p r m t s hs)

/-- C2: for every sequence of `getConnection`/`unregisterListener` calls on
    one data key starting from the empty registry, the refCount of every
    live connection never becomes negative, and the next release closes the
    socket if and only if the key's refCount is exactly 1 (i.e. reaches
    exactly 0); a closing release removes the registry entry, a non-closing
    release keeps the entry with the refCount decremented by one. -/
theorem C2_refcount_closure (p r m : String) (ops : List RegOp) (t : Nat) :
    (∀ k c, (runOps p r m ops initialState).connections k = some c →
        0 ≤ c.refCount) ∧
    ((unregisterListener p r m t false (runOps p r m ops initialState)).2 = true ↔
      ∃ w, (runOps p r m ops initialState).connections (dataKey p r m)
        = some ⟨w, 1⟩) ∧
    ((unregisterListener p r m t false (runOps p r m ops initialState)).2 = true →
      ((unregisterListener p r m t false
        (runOps p r m ops initialState)).1).connections (dataKey p r m) = none) ∧
    (∀ c, (runOps p r m ops initialState).connections (dataKey p r m) = some c →
      (unregisterListener p r m t false (runOps p r m ops initialState)).2 = false →
      ((unregisterListener p r m t false
        (runOps p r m ops initialState)).1).connections (dataKey p r m)
        = some ⟨c.wsId, c.refCount - 1⟩) := by
  have hpos := connPos_runOps p r m ops initialState connPos_initialState
  refine ⟨fun k c hk => by have := hpos k c hk; omega, ?_, ?_, ?_⟩
  · rw [unreg_data_eq]
    cases h : (runOps p r m ops initialState).connections (dataKey p r m) with
    | none => simp
    | some c0 =>
        obtain ⟨w0, n0⟩ := c0
        have h1 : 1 ≤ n0 := hpos _ _ h
        dsimp only
        split
        · rename_i hle
          constructor
          · intro _
            exact ⟨w0, by rw [show n0 = 1 by omega]⟩
          · intro _
            rfl
        · rename_i hgt
          constructor
          · intro hfalse
            exact absurd hfalse (by simp)
          · rintro ⟨w, hw⟩
            injection hw with hw'
            cases hw'
            omega
  · rw [unreg_data_eq]
    cases h : (runOps p r m ops initialState).connections (dataKey p r m) with
    | none =>
        intro hfalse
        exact absurd hfalse (by simp)
    | some c0 =>
        dsimp only
        split
        · intro _
          dsimp only
          exact mapErase_self _ _
        · intro hfalse
          exact absurd hfalse (by simp)
  · intro c hc
    rw [unreg_data_eq, hc]
    dsimp only
    split
    · intro hfalse
      exact absurd hfalse (by simp)
    · intro _
      dsimp only
      exact mapSet_self _ _ _

/-- C2 witness: one acquire then one release on an initially empty registry
    reports the socket closed (refCount reached exactly 0). -/
theorem C2_refcount_closure_witness :
    (unregisterListener "p" "r" "m" 0 false
      (runOps "p" "r" "m" [RegOp.acquire] initialState)).2 = true :=
  (C2_refcount_closure "p" "r" "m" [RegOp.acquire] 0).2.1.mpr ⟨0, by decide⟩

/-- C5: a transport close event on a data key removes the registry entry
    immediately and unconditionally regardless of its recorded refCount,
    opens no replacement socket (no automatic retry: the freshness counter
    and every other key are untouched), and a subsequent `getConnection`
    for the same key creates a brand-new connection object, distinct from
    the closed handle. -/
theorem C5_close_is_lazy (p r m : String) (s : ManagerState) (c : Conn)
    (hb : c.wsId < s.nextWsId)
    (hc : s.connections (dataKey p r m) = some c) :
    ((wsOnClose (dataKey p r m) false s).1).connections (dataKey p r m) = none ∧
    ((wsOnClose (dataKey p r m) false s).1).nextWsId = s.nextWsId ∧
    (∀ k, k ≠ dataKey p r m →
        ((wsOnClose (dataKey p r m) false s).1).connections k = s.connections k) ∧
    (getConnection p r m ((wsOnClose (dataKey p r m) false s).1)).1 ≠ c.wsId ∧
    ((getConnection p r m ((wsOnClose (dataKey p r m) false s).1)).2).connections
        (dataKey p r m) = some ⟨s.nextWsId, 1⟩ := by
  have hmain : (wsOnClose (dataKey p r m) false s).1
      = { s with connections := mapErase s.connections (dataKey p r m) } := by
    simp [wsOnClose]
  rw [hmain]
  refine ⟨mapErase_self _ _, rfl, fun k hk => mapErase_ne _ _ _ hk, ?_, ?_⟩
  · simp only [getConnection]
    rw [mapErase_self]
    dsimp only
    omega
  · simp only [getConnection]
    rw [mapErase_self]
    dsimp only
    exact mapSet_self _ _ _

/-- C5 witness: closing a connection with refCount 5 removes its entry, and
    re-acquiring the key yields a different socket handle. -/
theorem C5_close_is_lazy_witness :
    ((wsOnClose (dataKey "a" "b" "c") false c5State).1).connections
        (dataKey "a" "b" "c") = none ∧
    (getConnection "a" "b" "c"
        ((wsOnClose (dataKey "a" "b" "c") false c5State).1)).1 ≠ 0 := by
  have h := C5_close_is_lazy "a" "b" "c" c5State ⟨0, 5⟩ (by decide) (by decide)
  exact ⟨h.1, h.2.2.2.1⟩

/-- C8: two sessions acquiring the identical (proxy, reflector, module) key
    while the connection stays alive receive the same underlying socket
    handle, and the connection's refCount then equals 2, the number of
    sessions holding it. -/
theorem C8_shared_handle_refcount (p r m : String) (s : ManagerState)
    (h : s.connections (dataKey p r m) = none) :
    (getConnection p r m ((getConnection p r m s).2)).1
      = (getConnection p r m s).1 ∧
    ((getConnection p r m ((getConnection p r m s).2)).2).connections
        (dataKey p r m) = some ⟨(getConnection p r m s).1, 2⟩ := by
  simp only [getConnection, h]
  rw [mapSet_self]
  exact ⟨rfl, mapSet_self _ _ _⟩

/-- C8 witness: from the empty registry, two acquires of the same key agree
    on the handle. -/
theorem C8_shared_handle_refcount_witness :
    (getConnection "p" "r" "m" ((getConnection "p" "r" "m" initialState).2)).1
      = (getConnection "p" "r" "m" initialState).1 :=
  (C8_shared_handle_refcount "p" "r" "m" initialState rfl).1

/-- C10: whenever the data key's connection entry exists,
    `unregisterListener` decrements its refCount by exactly 1 no matter
    which token is passed (already-tombstoned or out-of-range included);
    in particular two unregister calls with the same token on a connection
    with refCount 2 close it and delete the entry while the second
    subscriber's slot is still registered. -/
theorem C10_blind_decrement (p r m : String) (s : ManagerState) (c : Conn)
    (a b : ListenerRec) (i : Nat)
    (hc : s.connections (dataKey p r m) = some c)
    (hn : c.refCount = 2)
    (hl : s.listeners (dataKey p r m) = some [a, b]) :
    ((unregisterListener p r m i false s).1).connections (dataKey p r m)
        = some ⟨c.wsId, 1⟩ ∧
    (unregisterListener p r m 0 false
        (unregisterListener p r m 0 false s).1).2 = true ∧
    ((unregisterListener p r m 0 false
        (unregisterListener p r m 0 false s).1).1).connections (dataKey p r m)
        = none ∧
    ((unregisterListener p r m 0 false
        (unregisterListener p r m 0 false s).1).1).listeners (dataKey p r m)
        = some [tombstone, b] := by
  obtain ⟨w, n⟩ := c
  have hn' : n = 2 := hn
  subst hn'
  have hfirst : ∀ j : Nat, ((unregisterListener p r m j false s).1).connections
      (dataKey p r m) = some ⟨w, 1⟩ := by
    intro j
    rw [unreg_data_eq, hc]
    dsimp only
    rw [if_neg (by norm_num)]
    dsimp only
    rw [mapSet_self]
    norm_num
  have hs1conn := hfirst 0
  have hs1list : ((unregisterListener p r m 0 false s).1).listeners (dataKey p r m)
      = some [tombstone, b] := by
    rw [unregisterListener_listeners, listenerKey_false]
    unfold tombstoneUpdate
    rw [hl]
    dsimp only
    rw [if_pos (by norm_num)]
    dsimp only
    rw [mapSet_self]
    rfl
  refine ⟨hfirst i, ?_, ?_, ?_⟩
  · rw [unreg_data_eq, hs1conn]
    dsimp only
    rw [if_pos (by norm_num)]
  · rw [unreg_data_eq, hs1conn]
    dsimp only
    rw [if_pos (by norm_num)]
    dsimp only
    exact mapErase_self _ _
  · rw [unregisterListener_listeners, listenerKey_false]
    unfold tombstoneUpdate
    rw [hs1list]
    dsimp only
    rw [if_pos (by norm_num)]
    dsimp only
    rw [mapSet_self]
    rfl

/-- C10 witness: with refCount 2, a release quoting the out-of-range token
    99 still decrements to 1, and two releases of the already-tombstoned
    token 0 close the socket. -/
theorem C10_blind_decrement_witness :
    ((unregisterListener "a" "b" "c" 99 false c10State).1).connections
        (dataKey "a" "b" "c") = some ⟨0, 1⟩ ∧
    (unregisterListener "a" "b" "c" 0 false
        (unregisterListener "a" "b" "c" 0 false c10State).1).2 = true := by
  have h := C10_blind_decrement "a" "b" "c" c10State ⟨0, 2⟩ tombstone wsRec 99
      (by decide) (by decide) (by decide)
  exact ⟨h.1, h.2.1⟩

/-- Characterisation of the indices invoked by `notifyListeners`. -/
theorem mem_notifyListeners (s : ManagerState) (key : Key) (e : EventName)
    (i : Nat) :
    i ∈ notifyListeners s key e ↔
      ∃ rec, slotAt s key i = some rec ∧ rec.has e = true := by
  unfold notifyListeners slotAt
  cases hl : s.listeners key with
  | none => simp
  | some l =>
      simp only [Option.getD_some]
      rw [List.mem_filter, List.mem_range]
      constructor
      · rintro ⟨hlt, hp⟩
        refine ⟨l.get ⟨i, hlt⟩, ?_, ?_⟩
        · rw [List.getElem?_eq_getElem hlt, List.get_eq_getElem]
        · rwa [List.getElem?_eq_getElem hlt, Option.getD_some] at hp
      · rintro ⟨rec, hrec, he⟩
        have hlt : i < l.length := by
          by_contra hge
          rw [List.getElem?_eq_none (by omega)] at hrec
          exact Option.noConfusion hrec
        refine ⟨hlt, ?_⟩
        rw [List.getElem?_eq_getElem hlt] at hrec
        rw [List.getElem?_eq_getElem hlt, Option.getD_some]
        rw [Option.some_injective _ hrec]
        exact he

/-- Effect of `tombstoneUpdate` on the key's own slot array. -/
theorem tombstoneUpdate_listeners_key (key : Key) (i : Nat) (s : ManagerState) :
    (tombstoneUpdate key i s).listeners key
      = match s.listeners key with
        | some l => some (if i < l.length then l.set i tombstone else l)
        | none => none := by
  unfold tombstoneUpdate
  cases hl : s.listeners key with
  | none =>
      dsimp only
      exact hl
  | some l =>
      dsimp only
      by_cases hi : i < l.length
      · rw [if_pos hi, if_pos hi]
        dsimp only
        rw [mapSet_self]
      · rw [if_neg hi, if_neg hi]
        exact hl

/-- Unregister never changes the length of a key's slot array. -/
theorem listLen_unregister (p r m : String) (iSt : Bool) (i : Nat)
    (s : ManagerState) :
    listLen ((unregisterListener p r m i iSt s).1) (listenerKey p r m iSt)
      = listLen s (listenerKey p r m iSt) := by
  rw [listLen, listLen, unregisterListener_listeners, tombstoneUpdate_listeners_key]
  cases s.listeners (listenerKey p r m iSt) with
  | none => rfl
  | some l =>
      simp only [Option.getD_some]
      split
      · simp
      · rfl

/-- Unregistering one token leaves every other slot untouched. -/
theorem slotAt_unregister_ne (p r m : String) (iSt : Bool) (i j : Nat)
    (s : ManagerState) (hj : j ≠ i) :
    slotAt ((unregisterListener p r m i iSt s).1) (listenerKey p r m iSt) j
      = slotAt s (listenerKey p r m iSt) j := by
  rw [slotAt, slotAt, unregisterListener_listeners, tombstoneUpdate_listeners_key]
  cases s.listeners (listenerKey p r m iSt) with
  | none => rfl
  | some l =>
      simp only [Option.getD_some]
      split
      · rw [List.getElem?_set, if_neg (Ne.symm hj)]
      · rfl

/-- A tombstoned slot stays tombstoned across an unregister call. -/
theorem slotAt_unregister_tomb (p r m : String) (iSt : Bool) (i t : Nat)
    (s : ManagerState)
    (h : slotAt s (listenerKey p r m iSt) t = some tombstone) :
    slotAt ((unregisterListener p r m i iSt s).1) (listenerKey p r m iSt) t
      = some tombstone := by
  by_cases hit : i = t
  · subst hit
    rw [slotAt, unregisterListener_listeners, tombstoneUpdate_listeners_key]
    cases hl : s.listeners (listenerKey p r m iSt) with
    | none =>
        rw [slotAt, hl] at h
        exact h
    | some l =>
        rw [slotAt, hl, Option.getD_some] at h
        simp only [Option.getD_some]
        split
        · rename_i hlen
          rw [List.getElem?_set, if_pos rfl, if_pos hlen]
        · exact h
  · rw [slotAt_unregister_ne p r m iSt i t s fun hh => hit hh.symm]
    exact h

/-- A tombstoned slot stays tombstoned across one multicaster operation. -/
theorem slotAt_lStep_tomb (p r m : String) (iSt : Bool) (t : Nat)
    (s : ManagerState) (op : LOp)
    (h : slotAt s (listenerKey p r m iSt) t = some tombstone) :
    slotAt (lStep p r m iSt s op) (listenerKey p r m iSt) t = some tombstone := by
  cases op with
  | reg rec =>
      have ht : t < ((s.listeners (listenerKey p r m iSt)).getD []).length := by
        by_contra hge
        rw [slotAt, List.getElem?_eq_none (by omega)] at h
        exact Option.noConfusion h
      simp only [lStep, registerListener, slotAt]
      rw [mapSet_self, Option.getD_some, List.getElem?_append_left ht]
      exact h
  | unreg i => exact slotAt_unregister_tomb p r m iSt i t s h

/-- A tombstoned slot stays tombstoned across any operation sequence. -/
theorem slotAt_runLOps_tomb (p r m : String) (iSt : Bool) (t : Nat)
    (ops : List LOp) (s : ManagerState)
    (h : slotAt s (listenerKey p r m iSt) t = some tombstone) :
    slotAt (runLOps p r m iSt ops s) (listenerKey p r m iSt) t = some tombstone := by
  induction ops generalizing s with
  | nil => exact h
  | cons op tl ih => exact ih _ (slotAt_lStep_tomb p r m iSt t s op h)

/-- C6: once `unregisterListener` has replaced a slot with the tombstone
    `{}`, that token's slot is never invoked by any later dispatch of any
    event, regardless of how many further register/unregister calls occur
    on the same key; and dispatch only ever invokes slots whose record
    defines the dispatched event name (capability absence is silently
    skipped). -/
theorem C6_tombstone_silent (p r m : String) (iSt : Bool) (t : Nat)
    (s : ManagerState) (ops : List LOp)
    (h : slotAt s (listenerKey p r m iSt) t = some tombstone) :
    (∀ e, t ∉ notifyListeners (runLOps p r m iSt ops s) (listenerKey p r m iSt) e) ∧
    (∀ e i, i ∈ notifyListeners (runLOps p r m iSt ops s) (listenerKey p r m iSt) e →
      ∃ rec, slotAt (runLOps p r m iSt ops s) (listenerKey p r m iSt) i = some rec ∧
        rec.has e = true) := by
  have hr := slotAt_runLOps_tomb p r m iSt t ops s h
  constructor
  · intro e hmem
    obtain ⟨rec, hrec, hhas⟩ := (mem_notifyListeners _ _ _ _).mp hmem
    rw [hr] at hrec
    rw [Option.some_injective _ hrec.symm] at hhas
    rw [tombstone_has] at hhas
    exact Bool.noConfusion hhas
  · intro e i hmem
    exact (mem_notifyListeners _ _ _ _).mp hmem

/-- C6 witness: with slot 0 already tombstoned, after a further register
    and a further unregister on the same key, an `onmessage` dispatch does
    not invoke token 0. -/
theorem C6_tombstone_silent_witness :
    0 ∉ notifyListeners
        (runLOps "a" "b" "c" false [LOp.reg wsRec, LOp.unreg 0] c6State)
        (listenerKey "a" "b" "c" false) EventName.onmessage :=
  (C6_tombstone_silent "a" "b" "c" false 0 c6State [LOp.reg wsRec, LOp.unreg 0]
    (by decide)).1 EventName.onmessage

/-- A multicaster operation never shortens a key's slot sequence. -/
theorem listLen_lStep_le (p r m : String) (iSt : Bool) (s : ManagerState)
    (op : LOp) :
    listLen s (listenerKey p r m iSt)
      ≤ listLen (lStep p r m iSt s op) (listenerKey p r m iSt) := by
  cases op with
  | reg rec =>
      simp only [lStep, registerListener, listLen]
      rw [mapSet_self, Option.getD_some, List.length_append]
      omega
  | unreg i =>
      exact le_of_eq (listLen_unregister p r m iSt i s).symm

/-- Slot sequences never shorten across operation sequences. -/
theorem listLen_runLOps_le (p r m : String) (iSt : Bool) (ops : List LOp)
    (s : ManagerState) :
    listLen s (listenerKey p r m iSt)
      ≤ listLen (runLOps p r m iSt ops s) (listenerKey p r m iSt) := by
  induction ops generalizing s with
  | nil => exact le_refl (listLen s (listenerKey p r m iSt))
  | cons op tl ih =>
      exact le_trans (listLen_lStep_le p r m iSt s op) (ih _)

/-- C7: `registerListener` appends a new slot and returns its index;
    `unregisterListener` replaces slot content without shrinking or
    reindexing the sequence; hence an issued token's position survives any
    later operation sequence on the key, and a later register never hands
    out the same index again. -/
theorem C7_token_stability (p r m : String) (iSt : Bool) (rec rec2 : ListenerRec)
    (s : ManagerState) (ops : List LOp) (idx j : Nat) :
    (registerListener p r m rec iSt s).1 = listLen s (listenerKey p r m iSt) ∧
    ((registerListener p r m rec iSt s).2).listeners (listenerKey p r m iSt)
      = some (((s.listeners (listenerKey p r m iSt)).getD []) ++ [rec]) ∧
    listLen ((unregisterListener p r m idx iSt s).1) (listenerKey p r m iSt)
      = listLen s (listenerKey p r m iSt) ∧
    (j ≠ idx →
      slotAt ((unregisterListener p r m idx iSt s).1) (listenerKey p r m iSt) j
        = slotAt s (listenerKey p r m iSt) j) ∧
    (registerListener p r m rec iSt s).1
      < listLen (runLOps p r m iSt ops ((registerListener p r m rec iSt s).2))
          (listenerKey p r m iSt) ∧
    (registerListener p r m rec iSt s).1
      < (registerListener p r m rec2 iSt
          (runLOps p r m iSt ops ((registerListener p r m rec iSt s).2))).1 := by
  have hlen2 : listLen ((registerListener p r m rec iSt s).2)
      (listenerKey p r m iSt) = listLen s (listenerKey p r m iSt) + 1 := by
    simp only [registerListener, listLen]
    rw [mapSet_self, Option.getD_some, List.length_append]
    rfl
  have hmono := listLen_runLOps_le p r m iSt ops ((registerListener p r m rec iSt s).2)
  have hlt : (registerListener p r m rec iSt s).1
      < listLen (runLOps p r m iSt ops ((registerListener p r m rec iSt s).2))
          (listenerKey p r m iSt) := by
    refine lt_of_lt_of_le ?_ hmono
    rw [hlen2]
    exact Nat.lt_succ_self _
  refine ⟨rfl, ?_, listLen_unregister p r m iSt idx s,
    fun hj => slotAt_unregister_ne p r m iSt idx j s hj, hlt, hlt⟩
  simp only [registerListener]
  rw [mapSet_self]

/-- C7 witness: on a key with two slots, unregistering token 0 leaves slot
    1 untouched. -/
theorem C7_token_stability_witness :
    slotAt ((unregisterListener "a" "b" "c" 0 false c10State).1)
        (listenerKey "a" "b" "c" false) 1
      = slotAt c10State (listenerKey "a" "b" "c" false) 1 :=
  (C7_token_stability "a" "b" "c" false wsRec wsRec c10State [] 0 1).2.2.2.1
    (by decide)

/-- C3 (failing evaluation): after the `reflector` attribute changes from
    `r1` to `r2` while playing, the OLD key `p/r1/m` still has refCount 1
    and its entry is still alive — the release of the old key prescribed by
    the claim never happened, because `attributeChangedCallback` assigns
    the new value before `_reconnectIfNeeded`, so `_disconnectWebSockets`
    rebuilds the unregister key from the already-updated attributes (the
    NEW key `p/r2/m`).  The stale listener under the old key also keeps
    receiving `onmessage` dispatches, while a fresh listener and connection
    were indeed created under the new key. -/
theorem C3_old_key_never_released :
    demoFinal.2.connections (dataKey "p" "r1" "m") = some ⟨1, 1⟩ ∧
    notifyListeners demoFinal.2 (dataKey "p" "r1" "m") EventName.onmessage = [0] ∧
    demoFinal.2.connections (dataKey "p" "r2" "m") = some ⟨2, 1⟩ := by
  decide

/-- C9 counterexample: a `reflector` change from `r1` to `r2` while playing
    leaves the session with no registered status listener: the stored
    status token is -1 and a status `onmessage` dispatch reaches no slot. -/
theorem C9_counterexample :
    demoFinal.1.statusListenerIndex = -1 ∧
    notifyListeners demoFinal.2 (statusKey "p") EventName.onmessage = [] := by
  decide

/-- `_connectToServer` never touches the status listener token. -/
theorem connectToServer_statusListenerIndex (sess : Session) (mgr : ManagerState) :
    ((connectToServer sess mgr).1).statusListenerIndex
      = sess.statusListenerIndex := by
  unfold connectToServer
  split
  · rfl
  · rfl

/-- C9 (amended): the status subscription is unaffected by play toggles
    (`_togglePlay` never touches the status token), and a key change while
    NOT playing re-registers a status listener; but a key change while
    playing unregisters the status listener without re-registering it,
    leaving the session without a status subscription. -/
theorem C9_status_subscription :
    (∀ sess mgr, ((togglePlay sess mgr).1).statusListenerIndex
        = sess.statusListenerIndex) ∧
    (∀ sess mgr oldV newV, sess.playerActive = false → sess.proxy ≠ "" →
      oldV ≠ newV →
      0 ≤ ((attributeChangedCallback sess mgr
              AttrName.reflector oldV newV).1).statusListenerIndex) ∧
    demoFinal.1.statusListenerIndex = -1 := by
  refine ⟨?_, ?_, by decide⟩
  · intro sess mgr
    unfold togglePlay
    by_cases hact : sess.playerActive = true
    · rw [if_pos hact]
      dsimp only
      split
      · rfl
      · rfl
    · rw [if_neg hact]
      exact connectToServer_statusListenerIndex _ _
  · intro sess mgr oldV newV hact hproxy hne
    unfold attributeChangedCallback
    rw [if_neg hne]
    dsimp only
    unfold reconnectIfNeeded
    rw [if_neg (by simp [hact])]
    rw [if_pos (by simp [hact])]
    unfold connectToServerStatus
    rw [if_neg (by simpa using hproxy)]
    dsimp only
    exact Int.ofNat_nonneg _

/-- C9 witness: a reflector change on an idle widget with proxy `p` yields
    a non-negative (freshly registered) status listener token. -/
theorem C9_status_subscription_witness :
    0 ≤ ((attributeChangedCallback { initSession with proxy := "p" } initialState
        AttrName.reflector "" "r").1).statusListenerIndex :=
  C9_status_subscription.2.1 { initSession with proxy := "p" } initialState "" "r"
    rfl (by decide) (by decide)

/-- C4 counterexample: a data message with `done = true` leaves both the
    stored `_src_call` and the displayed callsign unchanged — the display
    still shows the talker `N0CALL`, not the configured idle label
    `IDLE`. -/
theorem C4_counterexample :
    ((wsListenerOnMessage c4Sess ⟨[1, 2, 3], true, some "N0CALL"⟩).1).playerCallsign
        = "N0CALL" ∧
    ((wsListenerOnMessage c4Sess ⟨[1, 2, 3], true, some "N0CALL"⟩).1).playerCallsign
        ≠ c4Sess.label ∧
    ((wsListenerOnMessage c4Sess ⟨[1, 2, 3], true, some "N0CALL"⟩).1).src_call
        = c4Sess.src_call := by
  decide

/-- C4 (amended): the data-message handling path never alters the stored
    source callsign or the displayed callsign, whatever the `done` flag;
    the substitution of the display with the configured idle label is
    performed by the status-message handler, when a matching entry reports
    `active_qso = false`. -/
theorem C4_idle_label_via_status (sess : Session) (msg : DataMsg)
    (e : StatusEntry) :
    ((wsListenerOnMessage sess msg).1).playerCallsign = sess.playerCallsign ∧
    ((wsListenerOnMessage sess msg).1).src_call = sess.src_call ∧
    (e.reflector = sess.reflector → e.module = sess.module →
      e.active_qso = false →
      (processStatusEntry sess e).playerCallsign = sess.label) := by
  refine ⟨?_, ?_, ?_⟩
  · simp only [wsListenerOnMessage]
    split
    · rfl
    · rfl
  · simp only [wsListenerOnMessage]
    split
    · rfl
    · rfl
  · intro hr hm hq
    unfold processStatusEntry
    rw [if_pos ⟨hr, hm⟩, hq]
    rfl

/-- C4 witness: a status entry for the session's own (reflector, module)
    with `active_qso = false` resets the displayed callsign to the idle
    label `IDLE`. -/
theorem C4_idle_label_via_status_witness :
    (processStatusEntry c4Sess ⟨"R", "C", "W1ABC", false⟩).playerCallsign
      = "IDLE" :=
  (C4_idle_label_via_status c4Sess ⟨[], true, none⟩ ⟨"R", "C", "W1ABC", false⟩).2.2
    rfl rfl rfl

end M17Web
